import Mathlib

/-!
Shallow embedding of the Data-Pilot repository:
the pipeline-dashboard backend (session store, mock stage endpoints,
rate-limiting middleware, WebSocket connection manager) and the
Data-Pilot API (JWT auth service, user-owned data CRUD).
Python dictionaries become functions into `Option`, machine time becomes
an explicit `Int` parameter, and raised HTTP exceptions become `Except`
values carrying the status code and detail string.
-/

namespace Pipeline

/-- A step descriptor appended to a session's step list.
Stage-specific free-form dict entries are kept as a key-value list. -/
structure Step where
  step : String
  status : String
  timestamp : Int
  fields : List (String × String)
deriving DecidableEq

/-- One entry of the `pipeline_sessions` dict.  The `user_id` key is only
set by the upload endpoint's create-if-absent branch, so it is `Option`. -/
structure SessionRecord where
  session_id : String
  current_file_id : Option String
  current_step : Nat
  steps : List Step
  undo_stack : List Step
  redo_stack : List Step
  logs : List String
  created_at : Int
  user_id : Option String
deriving DecidableEq

/-- The global `pipeline_sessions : Dict[str, dict]` mapping. -/
def Store : Type := String → Option SessionRecord

/-- Dict assignment `pipeline_sessions[session_id] = record`. -/
def storeInsert (s : Store) (sid : String) (r : SessionRecord) : Store :=
  fun k => if k = sid then some r else s k

/-- The store at process start: no sessions. -/
def emptyStore : Store := fun _ => none

/-- Character class of the `session_id` pattern `[a-zA-Z0-9-]`. -/
def sessionIdChar (c : Char) : Bool :=
  c.isAlpha || c.isDigit || c = '-'

/-- `validate_session_id`: the regex `[a-zA-Z0-9-]` repeated exactly 36 times. -/
def validate_session_id (s : String) : Bool :=
  s.length = 36 && s.data.all sessionIdChar

/-- Character class of the `file_id` pattern `[a-zA-Z0-9_-]`. -/
def fileIdChar (c : Char) : Bool :=
  c.isAlpha || c.isDigit || c = '_' || c = '-'

/-- `validate_file_id`: the regex `[a-zA-Z0-9_-]+` (one or more). -/
def validate_file_id (s : String) : Bool :=
  decide (0 < s.length) && s.data.all fileIdChar

/-- The fresh record inserted by `get_pipeline_state` for an unknown id. -/
def freshSession (sid : String) (now : Int) : SessionRecord :=
  { session_id := sid
    current_file_id := none
    current_step := 0
    steps := []
    undo_stack := []
    redo_stack := []
    logs := []
    created_at := now
    user_id := none }

/-- `GET /api/state`: lazily initialise an unknown session, then return the
stored record.  Returns the record together with the updated store. -/
def get_pipeline_state (store : Store) (session_id : String) (now : Int) :
    SessionRecord × Store :=
  match store session_id with
  | some r => (r, store)
  | none =>
      let r := freshSession session_id now
      (r, storeInsert store session_id r)

/-- An `HTTPException(status_code, detail)` raised by a handler. -/
structure HttpErr where
  status_code : Nat
  detail : String
deriving DecidableEq

/-- The step dict built by `upload_file`. -/
def uploadStep (now : Int) (file_id : String) : Step :=
  { step := "upload", status := "completed", timestamp := now
    fields := [("file_id", file_id),
               ("details", "Mock file uploaded successfully")] }

/-- `POST /api/upload`.  `file_id` stands for the freshly generated
`file_{uuid4}` value and `uid` for the `user_id` produced by the
`verify_token` dependency.  Validates the session id, creates the session
record if absent (remembering the caller as owner), then appends an upload
step and overwrites `current_file_id` and `current_step`. -/
def upload_file (store : Store) (session_id uid file_id : String) (now : Int) :
    Except HttpErr String × Store :=
  if validate_session_id session_id then
    let r0 : SessionRecord :=
      match store session_id with
      | some r => r
      | none =>
          { session_id := session_id
            current_file_id := some file_id
            current_step := 1
            steps := []
            undo_stack := []
            redo_stack := []
            logs := []
            created_at := now
            user_id := some uid }
    (.ok file_id,
      storeInsert store session_id
        { r0 with steps := r0.steps ++ [uploadStep now file_id]
                  current_file_id := some file_id
                  current_step := 1 })
  else (.error ⟨400, "Invalid session ID format"⟩, store)

/-- Python truthiness of the `session_user` value read with `.get("user_id")`:
`None` and the empty string are falsy. -/
def optTruthy : Option String → Bool
  | none => false
  | some s => s != ""

/-- The step dict built by `preview_data`. -/
def previewStep (now : Int) (file_id : String) : Step :=
  { step := "preview", status := "completed", timestamp := now
    fields := [("file_id", file_id), ("details", "Data preview generated")] }

/-- `GET /api/preview`.  Validates both ids; when the session exists and
stores a (truthy) owner different from the caller, answers 403; otherwise
appends a preview step when the session exists (silently skipping state
update when it does not) and returns the canned preview payload (elided:
its content is constant and irrelevant to state). -/
def preview_data (store : Store) (file_id session_id uid : String) (now : Int) :
    Except HttpErr Unit × Store :=
  if validate_file_id file_id then
    if validate_session_id session_id then
      match store session_id with
      | some r =>
          if optTruthy r.user_id && r.user_id != some uid then
            (.error ⟨403, "Access denied to session"⟩, store)
          else
            (.ok (),
              storeInsert store session_id
                { r with steps := r.steps ++ [previewStep now file_id]
                         current_step := 2 })
      | none => (.ok (), store)
    else (.error ⟨400, "Invalid session ID format"⟩, store)
  else (.error ⟨400, "Invalid file ID format"⟩, store)

/-- Common body of the seven remaining mock stages: when the session id is
known, append the stage's step dict and overwrite `current_step` with the
stage's fixed index; otherwise leave the store untouched. -/
def record_mock_step (store : Store) (session_id : String) (st : Step)
    (k : Nat) : Store :=
  match store session_id with
  | some r =>
      storeInsert store session_id
        { r with steps := r.steps ++ [st], current_step := k }
  | none => store

/-- Step dict of `POST /api/clean` (the nested `params` dict is flattened
to one text field). -/
def cleanStep (now : Int) : Step :=
  { step := "clean", status := "completed", timestamp := now
    fields := [("action", "fillna"),
               ("params", "method=mean, columns=age, salary"),
               ("details", "Missing values filled with mean")] }

/-- `POST /api/clean`. -/
def clean_data (store : Store) (session_id : String) (now : Int) :
    Except HttpErr Unit × Store :=
  (.ok (), record_mock_step store session_id (cleanStep now) 3)

/-- Step dict of `POST /api/analyze`. -/
def analyzeStep (now : Int) : Step :=
  { step := "analyze", status := "completed", timestamp := now
    fields := [("analysis_type", "correlation"),
               ("details", "Correlation analysis completed")] }

/-- `POST /api/analyze`. -/
def analyze_data (store : Store) (session_id : String) (now : Int) :
    Except HttpErr Unit × Store :=
  (.ok (), record_mock_step store session_id (analyzeStep now) 4)

/-- Step dict of `POST /api/visualize`. -/
def visualizeStep (now : Int) : Step :=
  { step := "visualize", status := "completed", timestamp := now
    fields := [("chart_type", "bar"), ("details", "Bar chart generated")] }

/-- `POST /api/visualize`. -/
def visualize_data (store : Store) (session_id : String) (now : Int) :
    Except HttpErr Unit × Store :=
  (.ok (), record_mock_step store session_id (visualizeStep now) 5)

/-- Step dict of `POST /api/model`. -/
def modelStep (now : Int) : Step :=
  { step := "model", status := "completed", timestamp := now
    fields := [("model_type", "RandomForest"),
               ("details", "Model trained successfully")] }

/-- `POST /api/model`. -/
def train_model (store : Store) (session_id : String) (now : Int) :
    Except HttpErr Unit × Store :=
  (.ok (), record_mock_step store session_id (modelStep now) 6)

/-- Step dict of `POST /api/report`. -/
def reportStep (now : Int) : Step :=
  { step := "report", status := "completed", timestamp := now
    fields := [("format", "PDF"), ("details", "PDF report generated")] }

/-- `POST /api/report`. -/
def generate_report (store : Store) (session_id : String) (now : Int) :
    Except HttpErr Unit × Store :=
  (.ok (), record_mock_step store session_id (reportStep now) 7)

/-- Step dict of `POST /api/convert`. -/
def convertStep (now : Int) : Step :=
  { step := "convert", status := "completed", timestamp := now
    fields := [("from_format", "CSV"), ("to_format", "Parquet"),
               ("details", "File converted to Parquet")] }

/-- `POST /api/convert`. -/
def convert_format (store : Store) (session_id : String) (now : Int) :
    Except HttpErr Unit × Store :=
  (.ok (), record_mock_step store session_id (convertStep now) 8)

/-- Step dict of `POST /api/schema-validate` (stage name `schema`). -/
def schemaStep (now : Int) : Step :=
  { step := "schema", status := "completed", timestamp := now
    fields := [("schema_type", "JSON"), ("details", "Schema validation passed")] }

/-- `POST /api/schema-validate`. -/
def validate_schema (store : Store) (session_id : String) (now : Int) :
    Except HttpErr Unit × Store :=
  (.ok (), record_mock_step store session_id (schemaStep now) 9)

/-- The k-th pipeline stage in the intended serial order (1 = upload,
2 = preview, 3 = clean, 4 = analyze, 5 = visualize, 6 = model, 7 = report,
8 = convert, 9 = schema-validate), as a store transformer. -/
def stageCall (k : Nat) (sid uid fid : String) (now : Int) (s : Store) : Store :=
  match k with
  | 1 => (upload_file s sid uid fid now).2
  | 2 => (preview_data s fid sid uid now).2
  | 3 => (clean_data s sid now).2
  | 4 => (analyze_data s sid now).2
  | 5 => (visualize_data s sid now).2
  | 6 => (train_model s sid now).2
  | 7 => (generate_report s sid now).2
  | 8 => (convert_format s sid now).2
  | 9 => (validate_schema s sid now).2
  | _ => s

/-- A live WebSocket handle.  `send_fails` models whether the underlying
transport write (`send_text`) raises, the only behaviour of the handle the
backend observes. -/
structure Conn where
  id : Nat
  send_fails : Bool
deriving DecidableEq

/-- `ConnectionManager.active_connections : Dict[str, WebSocket]`. -/
structure ConnectionManager where
  active_connections : String → Option Conn

/-- `ConnectionManager.disconnect`: delete the entry when present. -/
def ConnectionManager.disconnect (m : ConnectionManager) (session_id : String) :
    ConnectionManager :=
  match m.active_connections session_id with
  | some _ =>
      ⟨fun k => if k = session_id then none else m.active_connections k⟩
  | none => m

/-- `ConnectionManager.send_log`: a no-op when no connection is registered
for the id; when the registered connection's write raises, the message is
dropped and the entry torn down (the handler swallows the exception). -/
def ConnectionManager.send_log (m : ConnectionManager) (session_id : String) :
    ConnectionManager :=
  match m.active_connections session_id with
  | some c => if c.send_fails then m.disconnect session_id else m
  | none => m

/-- `ConnectionManager.connect`: accept, store the handle under the id
(overwriting any previous one), then emit the connected log line. -/
def ConnectionManager.connect (m : ConnectionManager) (ws : Conn)
    (session_id : String) : ConnectionManager :=
  ConnectionManager.send_log
    ⟨fun k => if k = session_id then some ws else m.active_connections k⟩
    session_id

/-- A connection manager with no live connections. -/
def emptyManager : ConnectionManager := ⟨fun _ => none⟩

/-- One `(max_requests, window)` pair of `RATE_LIMITS`. -/
structure RateLimit where
  max_requests : Nat
  window : Int
deriving DecidableEq

/-- The `RATE_LIMITS` dict: 5 uploads per minute, 100 API calls per minute. -/
def RATE_LIMITS (limit_type : String) : RateLimit :=
  if limit_type = "upload" then ⟨5, 60⟩ else ⟨100, 60⟩

/-- `rate_limiter = defaultdict(list)`: client address to request times. -/
def RateLimiter : Type := String → List Int

/-- The rate limiter map at process start: every address maps to `[]`. -/
def emptyRateLimiter : RateLimiter := fun _ => []

/-- Assignment `rate_limiter[client_ip] = l`. -/
def rlSet (rl : RateLimiter) (ip : String) (l : List Int) : RateLimiter :=
  fun k => if k = ip then l else rl k

/-- List-of-characters substring test backing Python's `'/upload' in path`. -/
def charsStartWith : List Char → List Char → Bool
  | [], _ => true
  | _ :: _, [] => false
  | p :: ps, c :: cs => p = c && charsStartWith ps cs

/-- `sub in s` for strings: some suffix of `s` starts with `sub`. -/
def containsSubstr (sub s : List Char) : Bool :=
  match s with
  | [] => charsStartWith sub []
  | _ :: t => charsStartWith sub s || containsSubstr sub t

/-- The 429 body `{"error": ..., "retry_after": ...}`. -/
structure Resp429 where
  error : String
  retry_after : Int
deriving DecidableEq

/-- `rate_limiting_middleware`: pick the category from the path, discard
this client's timestamps older than the category window, compare the
remaining count with the category maximum; reject with 429 (keeping the
cleaned list) or record the request time and let it through (`none`). -/
def rate_limiting_middleware (rl : RateLimiter) (client_ip path : String)
    (current_time : Int) : Option Resp429 × RateLimiter :=
  let limit_type := if containsSubstr "/upload".data path.data then "upload" else "api"
  let limits := RATE_LIMITS limit_type
  let kept := (rl client_ip).filter
    (fun req_time => decide (current_time - req_time < limits.window))
  if limits.max_requests ≤ kept.length then
    (some ⟨"Rate limit exceeded", limits.window⟩, rlSet rl client_ip kept)
  else
    (none, rlSet rl client_ip (kept ++ [current_time]))

/-- One HTTP request handled by any of the session-store endpoints, as a
relation between the store before and after the call. -/
inductive EndpointStep : Store → Store → Prop where
  | state (s : Store) (sid : String) (now : Int) :
      EndpointStep s (get_pipeline_state s sid now).2
  | upload (s : Store) (sid uid fid : String) (now : Int) :
      EndpointStep s (upload_file s sid uid fid now).2
  | preview (s : Store) (fid sid uid : String) (now : Int) :
      EndpointStep s (preview_data s fid sid uid now).2
  | clean (s : Store) (sid : String) (now : Int) :
      EndpointStep s (clean_data s sid now).2
  | analyze (s : Store) (sid : String) (now : Int) :
      EndpointStep s (analyze_data s sid now).2
  | visualize (s : Store) (sid : String) (now : Int) :
      EndpointStep s (visualize_data s sid now).2
  | model (s : Store) (sid : String) (now : Int) :
      EndpointStep s (train_model s sid now).2
  | report (s : Store) (sid : String) (now : Int) :
      EndpointStep s (generate_report s sid now).2
  | convert (s : Store) (sid : String) (now : Int) :
      EndpointStep s (convert_format s sid now).2
  | schema (s : Store) (sid : String) (now : Int) :
      EndpointStep s (validate_schema s sid now).2

/-- Stores reachable from process start by endpoint calls. -/
inductive Reachable : Store → Prop where
  | init : Reachable emptyStore
  | step {s t : Store} : Reachable s → EndpointStep s t → Reachable t

/-- A format-valid (36-character) session id used for concrete runs. -/
def uuidSid : String := "123e4567-e89b-12d3-a456-426614174000"

end Pipeline

namespace DataPilot

/-- A row of the `user_data` table (`UserData` ORM model). -/
structure UserData where
  id : Nat
  title : String
  content : String
  data_type : String
  user_id : Nat
deriving DecidableEq

/-- The `user_data` table, in insertion order. -/
abbrev DB : Type := List UserData

/-- The request body `DataInput` of the data router. -/
structure DataInput where
  title : String
  content : String
  data_type : String
deriving DecidableEq

/-- An `AppException`: its HTTP status code and message, as rendered by the
central handler into the uniform JSON envelope. -/
structure AppError where
  status_code : Nat
  message : String
deriving DecidableEq

/-- `select(UserData).where(UserData.id == data_id, UserData.user_id ==
current_user.id)` followed by `.scalars().first()`. -/
def selectFirst (db : DB) (data_id user_id : Nat) : Option UserData :=
  (List.filter (fun d => d.id = data_id && d.user_id = user_id) db).head?

/-- The `valid_types` list checked by the create and update handlers. -/
def valid_types : List String := ["text", "note", "idea", "task"]

/-- The `try:` body of `create_data`: raise `ValidationException` (400) on a
disallowed `data_type`, otherwise insert the new row (`new_id` stands for
the primary key the database assigns) and return it. -/
def create_data_try (db : DB) (data : DataInput) (current_user new_id : Nat) :
    Except AppError (UserData × DB) :=
  if (decide (data.data_type ∈ valid_types) : Bool) then
    let new_data : UserData :=
      { id := new_id, title := data.title, content := data.content
        data_type := data.data_type, user_id := current_user }
    .ok (new_data, db ++ [new_data])
  else .error ⟨400, "Invalid data type"⟩

/-- `POST /api/data/`.  The blanket `except Exception` around the body
catches every raise — the `ValidationException` included — rolls the
transaction back and re-raises `DatabaseException` (500). -/
def create_data (db : DB) (data : DataInput) (current_user new_id : Nat) :
    Except AppError UserData × DB :=
  match create_data_try db data current_user new_id with
  | .ok (new_data, db1) => (.ok new_data, db1)
  | .error _ => (.error ⟨500, "Failed to create data"⟩, db)

/-- `GET /api/data/{data_id}`: look the row up filtered by both the id and
the requesting user's id; 404 when nothing matches. -/
def get_data (db : DB) (data_id current_user : Nat) :
    Except AppError UserData :=
  match selectFirst db data_id current_user with
  | some d => .ok d
  | none => .error ⟨404, "Data not found"⟩

/-- The `try:` body of `update_data`: validate the type (raising the 400
`ValidationException`), run the UPDATE filtered by id and user, commit, and
re-fetch by id alone (`first()` may be `None`, hence the `Option`). -/
def update_data_try (db : DB) (data_id : Nat) (data_update : DataInput)
    (current_user : Nat) : Except AppError (Option UserData × DB) :=
  if (decide (data_update.data_type ∈ valid_types) : Bool) then
    let db1 := db.map fun d =>
      if d.id = data_id && d.user_id = current_user then
        { d with title := data_update.title, content := data_update.content
                 data_type := data_update.data_type }
      else d
    .ok ((List.filter (fun d => d.id = data_id) db1).head?, db1)
  else .error ⟨400, "Invalid data type"⟩

/-- `PUT /api/data/{data_id}`.  The existence-and-ownership check runs
before the `try:`; inside it, every raise — the `ValidationException`
included — is caught, rolled back and re-raised as `DatabaseException`. -/
def update_data (db : DB) (data_id : Nat) (data_update : DataInput)
    (current_user : Nat) : Except AppError (Option UserData) × DB :=
  match selectFirst db data_id current_user with
  | none => (.error ⟨404, "Data not found"⟩, db)
  | some _ =>
      match update_data_try db data_id data_update current_user with
      | .ok (updated, db1) => (.ok updated, db1)
      | .error _ => (.error ⟨500, "Failed to update data"⟩, db)

/-- `DELETE /api/data/{data_id}`: look up filtered by id and user (404 when
absent), then delete the found row by its primary key. -/
def delete_data (db : DB) (data_id current_user : Nat) :
    Except AppError String × DB :=
  match selectFirst db data_id current_user with
  | none => (.error ⟨404, "Data not found"⟩, db)
  | some d =>
      (.ok "Data deleted successfully",
        List.filter (fun x => !(x.id = d.id : Bool)) db)

/-- `settings.SECRET_KEY` (default of `Settings`). -/
def SECRET_KEY : String := "super-secret-key"

/-- `settings.ALGORITHM`. -/
def ALGORITHM : String := "HS256"

/-- `settings.ACCESS_TOKEN_EXPIRE_MINUTES`. -/
def ACCESS_TOKEN_EXPIRE_MINUTES : Int := 30

/-- The claims `create_access_token` encodes for `data = {"sub": email}`. -/
structure TokenPayload where
  sub : String
  exp : Int
  iat : Int
deriving DecidableEq

/-- Interface model of the external JWT library's `jwt.encode` output: an
opaque token determined by its payload, signing key and algorithm. -/
structure JwtToken where
  payload : TokenPayload
  key : String
  alg : String
deriving DecidableEq

/-- Interface model of `jwt.encode(claims, key, algorithm)`. -/
def jwt_encode (p : TokenPayload) (key alg : String) : JwtToken :=
  ⟨p, key, alg⟩

/-- Interface model of `jwt.decode(token, key, algorithms)`: succeeds with
the original claims exactly when the key and algorithm match and the `exp`
claim lies in the future; otherwise the library raises `JWTError`. -/
def jwt_decode (t : JwtToken) (key alg : String) (now : Int) :
    Option TokenPayload :=
  if t.key = key && t.alg = alg && decide (now < t.payload.exp) then
    some t.payload
  else none

/-- `create_access_token(data={"sub": sub})` at current time `now`
(epoch seconds): sets `exp = now + 30 minutes` and `iat = now`, signs with
the shared secret, and returns the token together with
`expire_timestamp * 1000` (milliseconds for the frontend). -/
def create_access_token (sub : String) (now : Int) : JwtToken × Int :=
  let expire_timestamp : Int := now + ACCESS_TOKEN_EXPIRE_MINUTES * 60
  let payload : TokenPayload := ⟨sub, expire_timestamp, now⟩
  (jwt_encode payload SECRET_KEY ALGORITHM, expire_timestamp * 1000)

/-- `decode_access_token`: decode with the shared secret; `None` on any
`JWTError` (bad key, bad algorithm, expired). -/
def decode_access_token (t : JwtToken) (now : Int) : Option TokenPayload :=
  jwt_decode t SECRET_KEY ALGORITHM now

end DataPilot

namespace Pipeline

theorem storeInsert_self (s : Store) (sid : String) (r : SessionRecord) :
    storeInsert s sid r sid = some r := by
  simp [storeInsert]

theorem storeInsert_ne (s : Store) (sid k : String) (r : SessionRecord)
    (h : k ≠ sid) : storeInsert s sid r k = s k := by
  simp [storeInsert, h]

theorem record_mock_step_lookup (store : Store) (sid : String) (st : Step)
    (k : Nat) (r : SessionRecord) (hmem : store sid = some r) :
    record_mock_step store sid st k sid =
      some { r with steps := r.steps ++ [st], current_step := k } := by
  simp [record_mock_step, hmem, storeInsert_self]

theorem upload_lookup (store : Store) (sid uid fid : String) (now : Int)
    (r : SessionRecord) (hsid : validate_session_id sid = true)
    (hmem : store sid = some r) :
    (upload_file store sid uid fid now).2 sid =
      some { r with steps := r.steps ++ [uploadStep now fid]
                    current_file_id := some fid, current_step := 1 } := by
  simp [upload_file, hsid, hmem, storeInsert_self]

theorem preview_lookup (store : Store) (fid sid uid : String) (now : Int)
    (r : SessionRecord) (hfid : validate_file_id fid = true)
    (hsid : validate_session_id sid = true) (hmem : store sid = some r)
    (hcheck : (optTruthy r.user_id && r.user_id != some uid) = false) :
    (preview_data store fid sid uid now).2 sid =
      some { r with steps := r.steps ++ [previewStep now fid]
                    current_step := 2 } := by
  simp [preview_data, hfid, hsid, hmem, hcheck, storeInsert_self]

/-- C3: for a session id absent from the store, the first call to
`GET /api/state` inserts a fresh record with `current_step = 0`, empty step
list, empty undo and redo stacks and no current file id, and returns it;
a second call with the same id returns that identical record and leaves the
store unmodified. -/
theorem state_first_creates_second_reads (store : Store) (sid : String)
    (now now2 : Int) (habs : store sid = none) :
    ∃ r : SessionRecord,
      get_pipeline_state store sid now = (r, storeInsert store sid r) ∧
      r.current_step = 0 ∧ r.steps = [] ∧ r.undo_stack = [] ∧
      r.redo_stack = [] ∧ r.current_file_id = none ∧
      storeInsert store sid r sid = some r ∧
      get_pipeline_state (storeInsert store sid r) sid now2 =
        (r, storeInsert store sid r) := by
  refine ⟨freshSession sid now, ?_, rfl, rfl, rfl, rfl, rfl, storeInsert_self _ _ _, ?_⟩
  · simp [get_pipeline_state, habs]
  · simp [get_pipeline_state, storeInsert_self]

theorem state_first_creates_second_reads_witness :
    ∃ r : SessionRecord,
      get_pipeline_state emptyStore "abc" 0 = (r, storeInsert emptyStore "abc" r) ∧
      r.current_step = 0 ∧ r.steps = [] ∧ r.undo_stack = [] ∧
      r.redo_stack = [] ∧ r.current_file_id = none ∧
      storeInsert emptyStore "abc" r "abc" = some r ∧
      get_pipeline_state (storeInsert emptyStore "abc" r) "abc" 7 =
        (r, storeInsert emptyStore "abc" r) :=
  state_first_creates_second_reads emptyStore "abc" 0 7 rfl

theorem connect_lookup (m : ConnectionManager) (c : Conn) (sid : String) :
    (m.connect c sid).active_connections sid =
      if c.send_fails then none else some c := by
  unfold ConnectionManager.connect ConnectionManager.send_log
  cases h : c.send_fails <;>
    simp [h, ConnectionManager.disconnect]

/-- C9: the broadcaster's `send_log` is a no-op when no connection is
registered for the session id; when the registered connection's transport
write fails, `send_log` removes that session's entry (and raises nothing —
it is a total function into managers); a second `connect` for an
already-connected id replaces the stored connection. -/
theorem connection_manager_policies (m : ConnectionManager) (sid : String)
    (c c1 c2 : Conn) :
    (m.active_connections sid = none → m.send_log sid = m) ∧
    (m.active_connections sid = some c → c.send_fails = true →
      (m.send_log sid).active_connections sid = none) ∧
    (c2.send_fails = false →
      ((m.connect c1 sid).connect c2 sid).active_connections sid = some c2) := by
  refine ⟨fun h => ?_, fun h hf => ?_, fun h2 => ?_⟩
  · simp [ConnectionManager.send_log, h]
  · simp [ConnectionManager.send_log, h, hf, ConnectionManager.disconnect]
  · rw [connect_lookup, h2]
    simp

theorem connection_manager_policies_witness :
    (emptyManager.send_log "s" = emptyManager) ∧
    ((emptyManager.connect ⟨1, true⟩ "s").connect ⟨2, false⟩ "s").active_connections "s" =
      some ⟨2, false⟩ :=
  ⟨(connection_manager_policies emptyManager "s" ⟨0, true⟩ ⟨1, true⟩ ⟨2, false⟩).1 rfl,
   (connection_manager_policies emptyManager "s" ⟨0, true⟩ ⟨1, true⟩ ⟨2, false⟩).2.2 rfl⟩

end Pipeline

namespace DataPilot

/-- C5: a token created for `{"sub": e}` at time `now`, decoded before
expiry with the same shared secret, yields a payload with `sub = e` and
epoch-second `exp` and `iat` claims (`exp = now + 30 minutes`,
`iat = now`); the expiry returned alongside the token equals the `exp`
claim times 1000. -/
theorem access_token_roundtrip (e : String) (now now2 : Int)
    (hfresh : now2 < now + 30 * 60) :
    ∃ p : TokenPayload,
      decode_access_token (create_access_token e now).1 now2 = some p ∧
      p.sub = e ∧ p.exp = now + 30 * 60 ∧ p.iat = now ∧
      (create_access_token e now).2 = p.exp * 1000 := by
  refine ⟨⟨e, now + 30 * 60, now⟩, ?_, rfl, rfl, rfl, ?_⟩
  · have h : now2 < now + 1800 := by omega
    simp [decode_access_token, jwt_decode, create_access_token, jwt_encode,
      ACCESS_TOKEN_EXPIRE_MINUTES, h]
  · simp [create_access_token, ACCESS_TOKEN_EXPIRE_MINUTES]

theorem access_token_roundtrip_witness :
    ∃ p : TokenPayload,
      decode_access_token (create_access_token "a@example.com" 1000).1 1001 = some p ∧
      p.sub = "a@example.com" ∧ p.exp = 1000 + 30 * 60 ∧ p.iat = 1000 ∧
      (create_access_token "a@example.com" 1000).2 = p.exp * 1000 :=
  access_token_roundtrip "a@example.com" 1000 1001 (by norm_num)

/-- C8: a data item owned by user `a` is invisible to a distinct user `b`:
GET, PUT and DELETE on its id all answer 404 (the lookup filters by item id
and requesting user id together), and the table is left unchanged. -/
theorem data_ownership_isolation (db : DB) (d : UserData) (b : Nat)
    (du : DataInput) (hmem : d ∈ db) (hb : b ≠ d.user_id)
    (huniq : ∀ x ∈ db, x.id = d.id → x.user_id = d.user_id) :
    get_data db d.id b = .error ⟨404, "Data not found"⟩ ∧
    update_data db d.id du b = (.error ⟨404, "Data not found"⟩, db) ∧
    delete_data db d.id b = (.error ⟨404, "Data not found"⟩, db) := by
  have hsel : selectFirst db d.id b = none := by
    unfold selectFirst
    have hnil : List.filter (fun x => x.id = d.id && x.user_id = b) db = [] := by
      refine List.filter_eq_nil_iff.mpr ?_
      intro x hx
      simp only [Bool.and_eq_true, decide_eq_true_eq, not_and]
      intro h1 h2
      exact hb (h2.symm.trans (huniq x hx h1))
    rw [hnil]
    rfl
  refine ⟨?_, ?_, ?_⟩ <;> simp [get_data, update_data, delete_data, hsel]

theorem data_ownership_isolation_witness :
    get_data [⟨1, "t", "c", "text", 7⟩] 1 8 = .error ⟨404, "Data not found"⟩ ∧
    update_data [⟨1, "t", "c", "text", 7⟩] 1 ⟨"t2", "c2", "note"⟩ 8 =
      (.error ⟨404, "Data not found"⟩, [⟨1, "t", "c", "text", 7⟩]) ∧
    delete_data [⟨1, "t", "c", "text", 7⟩] 1 8 =
      (.error ⟨404, "Data not found"⟩, [⟨1, "t", "c", "text", 7⟩]) :=
  data_ownership_isolation [⟨1, "t", "c", "text", 7⟩] ⟨1, "t", "c", "text", 7⟩ 8
    ⟨"t2", "c2", "note"⟩ (by simp) (by decide) (by decide)

/-- C2 (code bug): creating or updating a data item with the disallowed
`data_type` value `"recipe"` does NOT produce a 400/422 validation error —
the `ValidationException` raised inside the handler's `try` block is caught
by the blanket `except Exception` and re-raised as a 500
`DatabaseException`.  No row is created or modified. -/
theorem invalid_data_type_yields_500 :
    create_data [] ⟨"t", "c", "recipe"⟩ 1 1 =
      (.error ⟨500, "Failed to create data"⟩, []) ∧
    update_data [⟨1, "t", "c", "text", 1⟩] 1 ⟨"t", "c", "recipe"⟩ 1 =
      (.error ⟨500, "Failed to update data"⟩, [⟨1, "t", "c", "text", 1⟩]) := by
  constructor <;> rfl

end DataPilot

namespace Pipeline

/-- C7: ownership is checked only on the preview read path — a caller whose
user id differs from the session's stored (non-empty) owner gets 403 and no
state change — while the seven mutating mock stages take no caller identity
at all and append a step to any existing session. -/
theorem partial_ownership_enforcement (store : Store) (fid sid uid owner : String)
    (r : SessionRecord) (now : Int)
    (hfid : validate_file_id fid = true) (hsid : validate_session_id sid = true)
    (hmem : store sid = some r) (hown : r.user_id = some owner)
    (hw : owner ≠ "") (hneq : owner ≠ uid) :
    preview_data store fid sid uid now =
      (.error ⟨403, "Access denied to session"⟩, store) ∧
    ∀ f ∈ [clean_data, analyze_data, visualize_data, train_model,
           generate_report, convert_format, validate_schema],
      ∃ r2 : SessionRecord, (f store sid now).2 sid = some r2 ∧
        r2.steps.length = r.steps.length + 1 := by
  constructor
  · have hcheck : (optTruthy r.user_id && r.user_id != some uid) = true := by
      simp [hown, optTruthy, hw, hneq]
    simp [preview_data, hfid, hsid, hmem, hcheck]
  · intro f hf
    fin_cases hf <;>
      exact ⟨_, record_mock_step_lookup store sid _ _ r hmem, by simp⟩

theorem partial_ownership_enforcement_witness :
    preview_data
        (storeInsert emptyStore uuidSid
          { freshSession uuidSid 0 with user_id := some "alice" })
        "file-1" uuidSid "bob" 5 =
      (.error ⟨403, "Access denied to session"⟩,
        storeInsert emptyStore uuidSid
          { freshSession uuidSid 0 with user_id := some "alice" }) :=
  (partial_ownership_enforcement
    (storeInsert emptyStore uuidSid
      { freshSession uuidSid 0 with user_id := some "alice" })
    "file-1" uuidSid "bob" "alice"
    { freshSession uuidSid 0 with user_id := some "alice" } 5
    (by decide) (by decide) (storeInsert_self _ _ _) rfl
    (by decide) (by decide)).1

/-- C1 counterexample: the state endpoint puts the format-invalid session
id `"abc"` into the store; the subsequent upload call against this known id
is rejected with 400 and leaves the store — hence the step sequence length
— unchanged, refuting `increases by exactly one` for every stage call
against a known id. -/
theorem upload_known_session_rejected_no_append :
    (get_pipeline_state emptyStore "abc" 0).2 "abc" =
      some (freshSession "abc" 0) ∧
    (freshSession "abc" 0).steps = [] ∧
    upload_file (get_pipeline_state emptyStore "abc" 0).2 "abc" "test_user" "file_1" 1 =
      (.error ⟨400, "Invalid session ID format"⟩,
        (get_pipeline_state emptyStore "abc" 0).2) :=
  ⟨rfl, rfl, rfl⟩

/-- C1 (amended): a stage call against a known session id appends exactly
one step and overwrites `current_step` with the stage's fixed position in
the intended order, provided the call passes that endpoint's own checks and
only those: upload (k = 1) requires only the 36-character session id
format; preview (k = 2) requires the file id format, the session id format
and that the stored owner, when set, is the caller; the remaining seven
stages (k = 3..9) check nothing at all.  In particular, serial stage calls
in the intended order leave `current_step = k` after the k-th call. -/
theorem stage_call_appends_and_sets_counter (store : Store) (sid uid fid : String)
    (now : Int) (r : SessionRecord) (hmem : store sid = some r) :
    (validate_session_id sid = true →
      ∃ r2 : SessionRecord, stageCall 1 sid uid fid now store sid = some r2 ∧
        r2.steps.length = r.steps.length + 1 ∧ r2.current_step = 1) ∧
    (validate_file_id fid = true → validate_session_id sid = true →
      (r.user_id = none ∨ r.user_id = some uid) →
      ∃ r2 : SessionRecord, stageCall 2 sid uid fid now store sid = some r2 ∧
        r2.steps.length = r.steps.length + 1 ∧ r2.current_step = 2) ∧
    (∀ k : Nat, 3 ≤ k → k ≤ 9 →
      ∃ r2 : SessionRecord, stageCall k sid uid fid now store sid = some r2 ∧
        r2.steps.length = r.steps.length + 1 ∧ r2.current_step = k) := by
  refine ⟨fun hsid => ?_, fun hfid hsid hown => ?_, fun k hk3 hk9 => ?_⟩
  · exact ⟨_, upload_lookup store sid uid fid now r hsid hmem, by simp, rfl⟩
  · have hcheck : (optTruthy r.user_id && r.user_id != some uid) = false := by
      rcases hown with h | h <;> simp [h, optTruthy]
    exact ⟨_, preview_lookup store fid sid uid now r hfid hsid hmem hcheck,
      by simp, rfl⟩
  · interval_cases k <;>
      exact ⟨_, record_mock_step_lookup store sid _ _ r hmem, by simp, rfl⟩

theorem rlSet_self (rl : RateLimiter) (ip : String) (l : List Int) :
    rlSet rl ip l ip = l := by
  simp [rlSet]

theorem mw_upload_eval (rl : RateLimiter) (ip : String) (now : Int) :
    rate_limiting_middleware rl ip "/api/upload" now =
      if 5 ≤ ((rl ip).filter (fun t => decide (now - t < 60))).length then
        (some ⟨"Rate limit exceeded", 60⟩,
          rlSet rl ip ((rl ip).filter (fun t => decide (now - t < 60))))
      else
        (none,
          rlSet rl ip ((rl ip).filter (fun t => decide (now - t < 60)) ++ [now])) := by
  have h : containsSubstr "/upload".data "/api/upload".data = true := by decide
  simp only [rate_limiting_middleware, h, if_true, RATE_LIMITS, if_pos rfl]

theorem mw_api_eval (rl : RateLimiter) (ip p : String) (now : Int)
    (hnp : containsSubstr "/upload".data p.data = false) :
    rate_limiting_middleware rl ip p now =
      if 100 ≤ ((rl ip).filter (fun t => decide (now - t < 60))).length then
        (some ⟨"Rate limit exceeded", 60⟩,
          rlSet rl ip ((rl ip).filter (fun t => decide (now - t < 60))))
      else
        (none,
          rlSet rl ip ((rl ip).filter (fun t => decide (now - t < 60)) ++ [now])) := by
  simp only [rate_limiting_middleware, hnp, Bool.false_eq_true, if_false, RATE_LIMITS]
  simp

theorem insert_prefix {s : Store} {tsid : String} {rNew : SessionRecord}
    {sid : String} {r r2 : SessionRecord}
    (hpre : ∀ rOld, s tsid = some rOld → ∃ suf, rNew.steps = rOld.steps ++ suf)
    (h1 : s sid = some r) (h2 : storeInsert s tsid rNew sid = some r2) :
    ∃ suf, r2.steps = r.steps ++ suf := by
  by_cases hc : sid = tsid
  · subst hc
    rw [storeInsert_self] at h2
    cases h2
    exact hpre r h1
  · rw [storeInsert_ne _ _ _ _ hc, h1] at h2
    cases h2
    exact ⟨[], by simp⟩

theorem insert_ok {s : Store} {tsid : String} {rNew : SessionRecord}
    (hok : ∀ sid r, s sid = some r → ∀ st ∈ r.steps, st.status = "completed")
    (hnew : ∀ st ∈ rNew.steps, st.status = "completed") :
    ∀ sid r, storeInsert s tsid rNew sid = some r →
      ∀ st ∈ r.steps, st.status = "completed" := by
  intro sid r h
  by_cases hc : sid = tsid
  · subst hc
    rw [storeInsert_self] at h
    cases h
    exact hnew
  · rw [storeInsert_ne _ _ _ _ hc] at h
    exact hok sid r h

theorem state_store_present {s : Store} {sid0 : String} {now : Int}
    {r0 : SessionRecord} (hm : s sid0 = some r0) :
    (get_pipeline_state s sid0 now).2 = s := by
  simp [get_pipeline_state, hm]

theorem state_store_absent {s : Store} {sid0 : String} {now : Int}
    (hm : s sid0 = none) :
    (get_pipeline_state s sid0 now).2 =
      storeInsert s sid0 (freshSession sid0 now) := by
  simp [get_pipeline_state, hm]

theorem upload_store_invalid {s : Store} {sid0 uid fid : String} {now : Int}
    (hv : validate_session_id sid0 = false) :
    (upload_file s sid0 uid fid now).2 = s := by
  simp [upload_file, hv]

theorem upload_store_present {s : Store} {sid0 uid fid : String} {now : Int}
    {r0 : SessionRecord} (hv : validate_session_id sid0 = true)
    (hm : s sid0 = some r0) :
    (upload_file s sid0 uid fid now).2 =
      storeInsert s sid0
        { r0 with steps := r0.steps ++ [uploadStep now fid]
                  current_file_id := some fid, current_step := 1 } := by
  simp [upload_file, hv, hm]

theorem upload_store_absent {s : Store} {sid0 uid fid : String} {now : Int}
    (hv : validate_session_id sid0 = true) (hm : s sid0 = none) :
    (upload_file s sid0 uid fid now).2 =
      storeInsert s sid0
        { session_id := sid0, current_file_id := some fid, current_step := 1,
          steps := [uploadStep now fid], undo_stack := [], redo_stack := [],
          logs := [], created_at := now, user_id := some uid } := by
  simp [upload_file, hv, hm]

theorem preview_store_invalid_fid {s : Store} {fid sid0 uid : String}
    {now : Int} (hf : validate_file_id fid = false) :
    (preview_data s fid sid0 uid now).2 = s := by
  simp [preview_data, hf]

theorem preview_store_invalid_sid {s : Store} {fid sid0 uid : String}
    {now : Int} (hf : validate_file_id fid = true)
    (hv : validate_session_id sid0 = false) :
    (preview_data s fid sid0 uid now).2 = s := by
  simp [preview_data, hf, hv]

theorem preview_store_absent {s : Store} {fid sid0 uid : String} {now : Int}
    (hf : validate_file_id fid = true) (hv : validate_session_id sid0 = true)
    (hm : s sid0 = none) :
    (preview_data s fid sid0 uid now).2 = s := by
  simp [preview_data, hf, hv, hm]

theorem preview_store_denied {s : Store} {fid sid0 uid : String} {now : Int}
    {r0 : SessionRecord} (hf : validate_file_id fid = true)
    (hv : validate_session_id sid0 = true) (hm : s sid0 = some r0)
    (hd : (optTruthy r0.user_id && r0.user_id != some uid) = true) :
    (preview_data s fid sid0 uid now).2 = s := by
  simp [preview_data, hf, hv, hm, hd]

theorem preview_store_allowed {s : Store} {fid sid0 uid : String} {now : Int}
    {r0 : SessionRecord} (hf : validate_file_id fid = true)
    (hv : validate_session_id sid0 = true) (hm : s sid0 = some r0)
    (hd : (optTruthy r0.user_id && r0.user_id != some uid) = false) :
    (preview_data s fid sid0 uid now).2 =
      storeInsert s sid0
        { r0 with steps := r0.steps ++ [previewStep now fid]
                  current_step := 2 } := by
  simp [preview_data, hf, hv, hm, hd]

theorem rms_store_present {s : Store} {sid0 : String} {st : Step} {k : Nat}
    {r0 : SessionRecord} (hm : s sid0 = some r0) :
    record_mock_step s sid0 st k =
      storeInsert s sid0
        { r0 with steps := r0.steps ++ [st], current_step := k } := by
  simp [record_mock_step, hm]

theorem rms_store_absent {s : Store} {sid0 : String} {st : Step} {k : Nat}
    (hm : s sid0 = none) : record_mock_step s sid0 st k = s := by
  simp [record_mock_step, hm]

theorem rms_prefix {s : Store} {sid0 : String} {st : Step} {k : Nat}
    {sid : String} {r r2 : SessionRecord} (h1 : s sid = some r)
    (h2 : record_mock_step s sid0 st k sid = some r2) :
    ∃ suf, r2.steps = r.steps ++ suf := by
  cases hm : s sid0 with
  | none =>
      rw [rms_store_absent hm, h1] at h2
      cases h2
      exact ⟨[], by simp⟩
  | some r0 =>
      rw [rms_store_present hm] at h2
      refine insert_prefix ?_ h1 h2
      intro rOld hOld
      rw [hm] at hOld
      cases hOld
      exact ⟨[st], rfl⟩

theorem rms_ok {s : Store} {sid0 : String} {st : Step} {k : Nat}
    (hst : st.status = "completed")
    (hok : ∀ sid r, s sid = some r → ∀ x ∈ r.steps, x.status = "completed") :
    ∀ sid r, record_mock_step s sid0 st k sid = some r →
      ∀ x ∈ r.steps, x.status = "completed" := by
  intro sid r h
  cases hm : s sid0 with
  | none =>
      rw [rms_store_absent hm] at h
      exact hok sid r h
  | some r0 =>
      rw [rms_store_present hm] at h
      refine insert_ok hok ?_ sid r h
      intro x hx
      rcases List.mem_append.mp hx with hx | hx
      · exact hok sid0 r0 hm x hx
      · rw [List.mem_singleton.mp hx]
        exact hst

theorem endpoint_prefix {s t : Store} (h : EndpointStep s t) (sid : String)
    (r r2 : SessionRecord) (h1 : s sid = some r) (h2 : t sid = some r2) :
    ∃ suf, r2.steps = r.steps ++ suf := by
  have triv : t = s → ∃ suf, r2.steps = r.steps ++ suf := by
    intro he
    rw [he, h1] at h2
    cases h2
    exact ⟨[], by simp⟩
  cases h with
  | state sid0 now =>
      cases hm : s sid0 with
      | some r0 => exact triv (state_store_present hm)
      | none =>
          rw [state_store_absent hm] at h2
          refine insert_prefix ?_ h1 h2
          intro rOld hOld
          rw [hm] at hOld
          cases hOld
  | upload sid0 uid fid now =>
      cases hv : validate_session_id sid0 with
      | false => exact triv (upload_store_invalid hv)
      | true =>
          cases hm : s sid0 with
          | some r0 =>
              rw [upload_store_present hv hm] at h2
              refine insert_prefix ?_ h1 h2
              intro rOld hOld
              rw [hm] at hOld
              cases hOld
              exact ⟨[uploadStep now fid], rfl⟩
          | none =>
              rw [upload_store_absent hv hm] at h2
              refine insert_prefix ?_ h1 h2
              intro rOld hOld
              rw [hm] at hOld
              cases hOld
  | preview fid sid0 uid now =>
      cases hf : validate_file_id fid with
      | false => exact triv (preview_store_invalid_fid hf)
      | true =>
          cases hv : validate_session_id sid0 with
          | false => exact triv (preview_store_invalid_sid hf hv)
          | true =>
              cases hm : s sid0 with
              | none => exact triv (preview_store_absent hf hv hm)
              | some r0 =>
                  cases hd : (optTruthy r0.user_id && r0.user_id != some uid) with
                  | true => exact triv (preview_store_denied hf hv hm hd)
                  | false =>
                      rw [preview_store_allowed hf hv hm hd] at h2
                      refine insert_prefix ?_ h1 h2
                      intro rOld hOld
                      rw [hm] at hOld
                      cases hOld
                      exact ⟨[previewStep now fid], rfl⟩
  | clean sid0 now => exact rms_prefix h1 h2
  | analyze sid0 now => exact rms_prefix h1 h2
  | visualize sid0 now => exact rms_prefix h1 h2
  | model sid0 now => exact rms_prefix h1 h2
  | report sid0 now => exact rms_prefix h1 h2
  | convert sid0 now => exact rms_prefix h1 h2
  | schema sid0 now => exact rms_prefix h1 h2

theorem endpoint_preserves_ok {s t : Store} (h : EndpointStep s t)
    (hok : ∀ sid r, s sid = some r → ∀ st ∈ r.steps, st.status = "completed") :
    ∀ sid r, t sid = some r → ∀ st ∈ r.steps, st.status = "completed" := by
  cases h with
  | state sid0 now =>
      cases hm : s sid0 with
      | some r0 =>
          rw [state_store_present hm]
          exact hok
      | none =>
          rw [state_store_absent hm]
          refine insert_ok hok ?_
          intro st hst
          simp [freshSession] at hst
  | upload sid0 uid fid now =>
      cases hv : validate_session_id sid0 with
      | false =>
          rw [upload_store_invalid hv]
          exact hok
      | true =>
          cases hm : s sid0 with
          | some r0 =>
              rw [upload_store_present hv hm]
              refine insert_ok hok ?_
              intro st hst
              rcases List.mem_append.mp hst with hst | hst
              · exact hok sid0 r0 hm st hst
              · rw [List.mem_singleton.mp hst]
                rfl
          | none =>
              rw [upload_store_absent hv hm]
              refine insert_ok hok ?_
              intro st hst
              rw [List.mem_singleton.mp hst]
              rfl
  | preview fid sid0 uid now =>
      cases hf : validate_file_id fid with
      | false =>
          rw [preview_store_invalid_fid hf]
          exact hok
      | true =>
          cases hv : validate_session_id sid0 with
          | false =>
              rw [preview_store_invalid_sid hf hv]
              exact hok
          | true =>
              cases hm : s sid0 with
              | none =>
                  rw [preview_store_absent hf hv hm]
                  exact hok
              | some r0 =>
                  cases hd : (optTruthy r0.user_id && r0.user_id != some uid) with
                  | true =>
                      rw [preview_store_denied hf hv hm hd]
                      exact hok
                  | false =>
                      rw [preview_store_allowed hf hv hm hd]
                      refine insert_ok hok ?_
                      intro st hst
                      rcases List.mem_append.mp hst with hst | hst
                      · exact hok sid0 r0 hm st hst
                      · rw [List.mem_singleton.mp hst]
                        rfl
  | clean sid0 now => exact rms_ok rfl hok
  | analyze sid0 now => exact rms_ok rfl hok
  | visualize sid0 now => exact rms_ok rfl hok
  | model sid0 now => exact rms_ok rfl hok
  | report sid0 now => exact rms_ok rfl hok
  | convert sid0 now => exact rms_ok rfl hok
  | schema sid0 now => exact rms_ok rfl hok

/-- C6: (i) every endpoint call only appends to a session's step sequence —
for a session present before and after the call, the old sequence is a
prefix (the new one is the old with a suffix appended); (ii) in every
reachable store, every step of every session has status `"completed"`. -/
theorem append_only_and_steps_completed :
    (∀ s t : Store, EndpointStep s t → ∀ sid r r2,
        s sid = some r → t sid = some r2 →
        ∃ suf, r2.steps = r.steps ++ suf) ∧
    (∀ s : Store, Reachable s → ∀ sid r, s sid = some r →
        ∀ st ∈ r.steps, st.status = "completed") := by
  constructor
  · intro s t h sid r r2 h1 h2
    exact endpoint_prefix h sid r r2 h1 h2
  · intro s hs
    induction hs with
    | init => intro sid r h; cases h
    | step _ hstep ih => exact endpoint_preserves_ok hstep ih

theorem append_only_and_steps_completed_witness :
    (uploadStep 1 "file_1").status = "completed" :=
  append_only_and_steps_completed.2
    (upload_file (get_pipeline_state emptyStore uuidSid 0).2 uuidSid
      "test_user" "file_1" 1).2
    (Reachable.step
      (Reachable.step Reachable.init (EndpointStep.state emptyStore uuidSid 0))
      (EndpointStep.upload (get_pipeline_state emptyStore uuidSid 0).2 uuidSid
        "test_user" "file_1" 1))
    uuidSid
    { session_id := uuidSid, current_file_id := some "file_1"
      current_step := 1, steps := [uploadStep 1 "file_1"], undo_stack := []
      redo_stack := [], logs := [], created_at := 0, user_id := none }
    rfl
    (uploadStep 1 "file_1") (by simp)

theorem filter_window_all (nowi : Int) (l : List Int)
    (h : ∀ a ∈ l, nowi - a < 60) :
    List.filter (fun t => decide (nowi - t < 60)) l = l :=
  List.filter_eq_self.mpr fun a ha => by simpa using h a ha

/-- C4: six upload requests from one client address within a 60-second
window, starting from a fresh limiter: the first five pass, the sixth is
rejected with 429 and a body carrying `error` and `retry_after`; a further
upload more than 60 seconds after the five recorded requests passes again,
because the stale timestamps are discarded before the count is compared. -/
theorem upload_rate_limit_burst (ip : String) (t1 t2 t3 t4 t5 t6 t7 : Int)
    (h12 : t1 ≤ t2) (h23 : t2 ≤ t3) (h34 : t3 ≤ t4) (h45 : t4 ≤ t5)
    (h56 : t5 ≤ t6) (hwin : t6 - t1 < 60) (hlate : 60 < t7 - t5) :
    ∃ rl1 rl2 rl3 rl4 rl5 rl6 : RateLimiter,
      rate_limiting_middleware emptyRateLimiter ip "/api/upload" t1 = (none, rl1) ∧
      rate_limiting_middleware rl1 ip "/api/upload" t2 = (none, rl2) ∧
      rate_limiting_middleware rl2 ip "/api/upload" t3 = (none, rl3) ∧
      rate_limiting_middleware rl3 ip "/api/upload" t4 = (none, rl4) ∧
      rate_limiting_middleware rl4 ip "/api/upload" t5 = (none, rl5) ∧
      rate_limiting_middleware rl5 ip "/api/upload" t6 =
        (some ⟨"Rate limit exceeded", 60⟩, rl6) ∧
      (rate_limiting_middleware rl6 ip "/api/upload" t7).1 = none := by
  refine ⟨rlSet emptyRateLimiter ip [t1],
    rlSet (rlSet emptyRateLimiter ip [t1]) ip [t1, t2],
    rlSet (rlSet (rlSet emptyRateLimiter ip [t1]) ip [t1, t2]) ip [t1, t2, t3],
    rlSet (rlSet (rlSet (rlSet emptyRateLimiter ip [t1]) ip [t1, t2]) ip
      [t1, t2, t3]) ip [t1, t2, t3, t4],
    rlSet (rlSet (rlSet (rlSet (rlSet emptyRateLimiter ip [t1]) ip [t1, t2]) ip
      [t1, t2, t3]) ip [t1, t2, t3, t4]) ip [t1, t2, t3, t4, t5],
    rlSet (rlSet (rlSet (rlSet (rlSet (rlSet emptyRateLimiter ip [t1]) ip
      [t1, t2]) ip [t1, t2, t3]) ip [t1, t2, t3, t4]) ip [t1, t2, t3, t4, t5]) ip
      [t1, t2, t3, t4, t5],
    ?_, ?_, ?_, ?_, ?_, ?_, ?_⟩
  · rw [mw_upload_eval]
    simp only [emptyRateLimiter]
    simp
  · rw [mw_upload_eval, rlSet_self,
      filter_window_all t2 [t1] (by intro a ha; simp at ha; omega)]
    simp
  · rw [mw_upload_eval, rlSet_self,
      filter_window_all t3 [t1, t2]
        (by intro a ha; simp at ha; rcases ha with rfl | rfl <;> omega)]
    simp
  · rw [mw_upload_eval, rlSet_self,
      filter_window_all t4 [t1, t2, t3]
        (by intro a ha; simp at ha; rcases ha with rfl | rfl | rfl <;> omega)]
    simp
  · rw [mw_upload_eval, rlSet_self,
      filter_window_all t5 [t1, t2, t3, t4]
        (by intro a ha; simp at ha; rcases ha with rfl | rfl | rfl | rfl <;> omega)]
    simp
  · rw [mw_upload_eval, rlSet_self,
      filter_window_all t6 [t1, t2, t3, t4, t5]
        (by intro a ha; simp at ha; rcases ha with rfl | rfl | rfl | rfl | rfl <;> omega)]
    simp
  · rw [mw_upload_eval, rlSet_self]
    have hnil : List.filter (fun t => decide (t7 - t < 60)) [t1, t2, t3, t4, t5] = [] := by
      refine List.filter_eq_nil_iff.mpr ?_
      intro a ha
      simp at ha ⊢
      rcases ha with rfl | rfl | rfl | rfl | rfl <;> omega
    rw [hnil]
    simp

theorem upload_rate_limit_burst_witness :
    ∃ rl1 rl2 rl3 rl4 rl5 rl6 : RateLimiter,
      rate_limiting_middleware emptyRateLimiter "1.2.3.4" "/api/upload" 0 = (none, rl1) ∧
      rate_limiting_middleware rl1 "1.2.3.4" "/api/upload" 1 = (none, rl2) ∧
      rate_limiting_middleware rl2 "1.2.3.4" "/api/upload" 2 = (none, rl3) ∧
      rate_limiting_middleware rl3 "1.2.3.4" "/api/upload" 3 = (none, rl4) ∧
      rate_limiting_middleware rl4 "1.2.3.4" "/api/upload" 4 = (none, rl5) ∧
      rate_limiting_middleware rl5 "1.2.3.4" "/api/upload" 59 =
        (some ⟨"Rate limit exceeded", 60⟩, rl6) ∧
      (rate_limiting_middleware rl6 "1.2.3.4" "/api/upload" 70).1 = none :=
  upload_rate_limit_burst "1.2.3.4" 0 1 2 3 4 59 70
    (by norm_num) (by norm_num) (by norm_num) (by norm_num) (by norm_num)
    (by norm_num) (by norm_num)

/-- C10: the limiter keeps one timestamp list per client address shared by
both categories — five requests to arbitrary non-upload paths within the
window already exhaust the upload budget, so the first upload from that
address is rejected with 429 although no upload was ever made. -/
theorem shared_bucket_across_categories (ip p1 p2 p3 p4 p5 : String)
    (t1 t2 t3 t4 t5 t6 : Int)
    (hp1 : containsSubstr "/upload".data p1.data = false)
    (hp2 : containsSubstr "/upload".data p2.data = false)
    (hp3 : containsSubstr "/upload".data p3.data = false)
    (hp4 : containsSubstr "/upload".data p4.data = false)
    (hp5 : containsSubstr "/upload".data p5.data = false)
    (h12 : t1 ≤ t2) (h23 : t2 ≤ t3) (h34 : t3 ≤ t4) (h45 : t4 ≤ t5)
    (h56 : t5 ≤ t6) (hwin : t6 - t1 < 60) :
    ∃ rl1 rl2 rl3 rl4 rl5 : RateLimiter,
      rate_limiting_middleware emptyRateLimiter ip p1 t1 = (none, rl1) ∧
      rate_limiting_middleware rl1 ip p2 t2 = (none, rl2) ∧
      rate_limiting_middleware rl2 ip p3 t3 = (none, rl3) ∧
      rate_limiting_middleware rl3 ip p4 t4 = (none, rl4) ∧
      rate_limiting_middleware rl4 ip p5 t5 = (none, rl5) ∧
      (rate_limiting_middleware rl5 ip "/api/upload" t6).1 =
        some ⟨"Rate limit exceeded", 60⟩ := by
  refine ⟨rlSet emptyRateLimiter ip [t1],
    rlSet (rlSet emptyRateLimiter ip [t1]) ip [t1, t2],
    rlSet (rlSet (rlSet emptyRateLimiter ip [t1]) ip [t1, t2]) ip [t1, t2, t3],
    rlSet (rlSet (rlSet (rlSet emptyRateLimiter ip [t1]) ip [t1, t2]) ip
      [t1, t2, t3]) ip [t1, t2, t3, t4],
    rlSet (rlSet (rlSet (rlSet (rlSet emptyRateLimiter ip [t1]) ip [t1, t2]) ip
      [t1, t2, t3]) ip [t1, t2, t3, t4]) ip [t1, t2, t3, t4, t5],
    ?_, ?_, ?_, ?_, ?_, ?_⟩
  · rw [mw_api_eval _ _ _ _ hp1]
    simp only [emptyRateLimiter]
    simp
  · rw [mw_api_eval _ _ _ _ hp2, rlSet_self,
      filter_window_all t2 [t1] (by intro a ha; simp at ha; omega)]
    simp
  · rw [mw_api_eval _ _ _ _ hp3, rlSet_self,
      filter_window_all t3 [t1, t2]
        (by intro a ha; simp at ha; rcases ha with rfl | rfl <;> omega)]
    simp
  · rw [mw_api_eval _ _ _ _ hp4, rlSet_self,
      filter_window_all t4 [t1, t2, t3]
        (by intro a ha; simp at ha; rcases ha with rfl | rfl | rfl <;> omega)]
    simp
  · rw [mw_api_eval _ _ _ _ hp5, rlSet_self,
      filter_window_all t5 [t1, t2, t3, t4]
        (by intro a ha; simp at ha; rcases ha with rfl | rfl | rfl | rfl <;> omega)]
    simp
  · rw [mw_upload_eval, rlSet_self,
      filter_window_all t6 [t1, t2, t3, t4, t5]
        (by intro a ha; simp at ha; rcases ha with rfl | rfl | rfl | rfl | rfl <;> omega)]
    simp

theorem shared_bucket_across_categories_witness :
    ∃ rl1 rl2 rl3 rl4 rl5 : RateLimiter,
      rate_limiting_middleware emptyRateLimiter "1.2.3.4" "/api/clean" 0 = (none, rl1) ∧
      rate_limiting_middleware rl1 "1.2.3.4" "/api/state" 1 = (none, rl2) ∧
      rate_limiting_middleware rl2 "1.2.3.4" "/health" 2 = (none, rl3) ∧
      rate_limiting_middleware rl3 "1.2.3.4" "/api/analyze" 3 = (none, rl4) ∧
      rate_limiting_middleware rl4 "1.2.3.4" "/api/report" 4 = (none, rl5) ∧
      (rate_limiting_middleware rl5 "1.2.3.4" "/api/upload" 5).1 =
        some ⟨"Rate limit exceeded", 60⟩ :=
  shared_bucket_across_categories "1.2.3.4" "/api/clean" "/api/state" "/health"
    "/api/analyze" "/api/report" 0 1 2 3 4 5
    (by decide) (by decide) (by decide) (by decide) (by decide)
    (by norm_num) (by norm_num) (by norm_num) (by norm_num) (by norm_num)
    (by norm_num)

theorem stage_call_appends_witness :
    (∃ r2 : SessionRecord,
      stageCall 3 "abc" "test_user" "file_1" 2
        (storeInsert emptyStore "abc" (freshSession "abc" 0)) "abc" = some r2 ∧
      r2.steps.length = (freshSession "abc" 0).steps.length + 1 ∧
      r2.current_step = 3) ∧
    (∃ r2 : SessionRecord,
      stageCall 1 uuidSid "bob" "file_1" 2
        (storeInsert emptyStore uuidSid
          { freshSession uuidSid 0 with user_id := some "alice" }) uuidSid =
        some r2 ∧
      r2.steps.length =
        ({ freshSession uuidSid 0 with
            user_id := some "alice" } : SessionRecord).steps.length + 1 ∧
      r2.current_step = 1) :=
  ⟨(stage_call_appends_and_sets_counter
      (storeInsert emptyStore "abc" (freshSession "abc" 0)) "abc" "test_user"
      "file_1" 2 (freshSession "abc" 0) (storeInsert_self _ _ _)).2.2
      3 (by norm_num) (by norm_num),
   (stage_call_appends_and_sets_counter
      (storeInsert emptyStore uuidSid
        { freshSession uuidSid 0 with user_id := some "alice" }) uuidSid "bob"
      "file_1" 2 { freshSession uuidSid 0 with user_id := some "alice" }
      (storeInsert_self _ _ _)).1 (by decide)⟩

end Pipeline
